import Mathlib

/-!
Verification of the GTP user-automation tool (`src/main.py`) against its
natural-language specification.

The development shallowly embeds the parts of the program the claims touch:

* `AutomationWorker.run` (lines 226-278) becomes `runBody`/`runWorker`, a pure
  function from an environment `Oracle` (the success/failure outcome of each
  blocking browser phase) and a cancellation-flag read sequence
  `flag : Nat → Bool` (the value returned by the i-th `self.is_running` read,
  in program order) to the ordered trace of observable events: browser calls,
  progress lines, the error signal, the close call and the finished signal.
* `BrowserDriver.login` (lines 39-86) becomes `login`, a pure function from a
  `LoginEnv` (outcome of each wait/navigation) to its event trace and
  its outcome (`none` = returned normally, `some e` = raised `e`).
* `parse_credentials_file` (lines 196-204) and `parse_user_data`
  (lines 167-194) become `Except`-valued parsers over the file lines and the
  spreadsheet grid (cells are `Option String`, `none` = blank/NaN, matching a
  pandas frame read with `header=None`).
* line 107 (`str(...).split(' ')[0]`) becomes `currency_code`, and lines
  106/146 become `provisionForm`, the values typed into the creation form.

Python exceptions are modelled by `PyError`, keeping only the data the worker
surfaces to the operator (the exception class name, line 266): Playwright
`expect(...).to_be_visible` assertions raise `AssertionError`; `page.goto`,
`wait_for_url` and `wait_for_load_state` timeouts raise Playwright's
`TimeoutError`. Signal emission and `BrowserDriver.close` are modelled as
non-raising, and `stop()` (which runs on the UI thread) is outside the trace.
-/

/-- The Python exception classes that can cross the phases the claims are
about, identified by what `AutomationWorker.run` surfaces: `type(e).__name__`. -/
inductive PyError where
  | timeoutError
  | assertionError
  | otherError (name : String)
deriving DecidableEq, Repr

/-- Line 266: `error_type = type(e).__name__`. -/
def pyTypeName : PyError → String
  | PyError.timeoutError => "TimeoutError"
  | PyError.assertionError => "AssertionError"
  | PyError.otherError n => n

/-- One spreadsheet cell as pandas sees it: `none` is NaN (blank). -/
abbrev Cell := Option String

/-- One row of either section after `to_dict('records')` (lines 192-193):
a record with the three named columns; a field is `none` when the cell was
blank (pandas NaN). -/
structure UserRecord where
  Currency : Cell
  Username : Cell
  Postfix : Cell
deriving DecidableEq, Repr

/-- Observable events of one worker run, in program order: browser calls made
by `AutomationWorker.run`, plus the three worker-channel signals
(`progress_update`, `automation_error`, `automation_finished`). -/
inductive WEvent where
  | progress (msg : String)
  | launchCall
  | loginCall
  | settleCall
  | createCall (u : UserRecord)
  | closeCall
  | errorSig (tyName : String)
  | finishedSig
deriving DecidableEq, Repr

/-- Environment of one run: the outcome of each blocking browser phase
(`none` = the call returned, `some e` = it raised `e`). `createErr k` is the
outcome of the k-th `create_standard_user` call of the run (0-indexed across
both batches). -/
structure Oracle where
  launchErr : Option PyError
  loginErr : Option PyError
  settleErr : Option PyError
  createErr : Nat → Option PyError

/-- The worker's per-run inputs that drive control flow (lines 214-224). -/
structure WorkerCfg where
  lvc_users : List UserRecord
  standard_users : List UserRecord
  debug_mode : Bool

/-- How the body of the `try` block in `run` ended: fell through normally,
returned/broke early because an `is_running` read was false, or raised. -/
inductive BodyExit where
  | normal
  | cancelled
  | raised (e : PyError)
deriving DecidableEq, Repr

/-- One user loop of `run` (lines 244-249 with `debugBreak = debug_mode`,
lines 254-256 with `debugBreak = false`): for each record, read `is_running`
(read index `r`) and break if false; otherwise call `create_standard_user`
(create index `c`), propagating a raise; in debug mode emit the halt message
and break after the first record. Returns the events, the next read index,
the next create index, and the raised error if any. -/
def usersLoop (flag : Nat → Bool) (createErr : Nat → Option PyError)
    (debugBreak : Bool) : List UserRecord → Nat → Nat →
    List WEvent × Nat × Nat × Option PyError
  | [], r, c => ([], r, c, none)
  | u :: rest, r, c =>
    if flag r then
      match createErr c with
      | some e => ([WEvent.createCall u], r + 1, c + 1, some e)
      | none =>
        if debugBreak then
          ([WEvent.createCall u,
            WEvent.progress "--- DEBUG MODE: Halting after first LVC user. ---"],
           r + 1, c + 1, none)
        else
          match usersLoop flag createErr debugBreak rest (r + 1) (c + 1) with
          | (evs, r2, c2, ex) => (WEvent.createCall u :: evs, r2, c2, ex)
    else ([], r + 1, c, none)

/-- Lines 229-231: the opening progress lines. -/
def startMsgs (debug : Bool) : List WEvent :=
  WEvent.progress "Automation thread started." ::
    (if debug then
      [WEvent.progress "--- DEBUG MODE ENABLED: Processing first LVC user only. ---"]
     else [])

/-- The `try` body of `AutomationWorker.run` (lines 228-259). Flag reads occur
in program order: index 0 before `launch`, 1 before `login`, 2 before
`wait_for_page_to_settle`, 3 before the LVC loop, then one per loop iteration
entered, one before the standard phase (non-debug only), one per standard
iteration, and one final read guarding the completion message. -/
def runBody (o : Oracle) (flag : Nat → Bool) (cfg : WorkerCfg) :
    List WEvent × BodyExit :=
  let p0 := startMsgs cfg.debug_mode
  if flag 0 then
    let p1 := p0 ++ [WEvent.launchCall]
    match o.launchErr with
    | some e => (p1, BodyExit.raised e)
    | none =>
      if flag 1 then
        let p2 := p1 ++ [WEvent.loginCall]
        match o.loginErr with
        | some e => (p2, BodyExit.raised e)
        | none =>
          if flag 2 then
            let p3 := p2 ++ [WEvent.settleCall]
            match o.settleErr with
            | some e => (p3, BodyExit.raised e)
            | none =>
              if flag 3 then
                let p4 := p3 ++ [WEvent.progress "Step 2: Processing LVC users..."]
                let lvcRes := usersLoop flag o.createErr cfg.debug_mode cfg.lvc_users 4 0
                let p5 := p4 ++ lvcRes.1
                match lvcRes.2.2.2 with
                | some e => (p5, BodyExit.raised e)
                | none =>
                  if cfg.debug_mode then
                    if flag lvcRes.2.1 then
                      (p5 ++ [WEvent.progress "Automation complete!"], BodyExit.normal)
                    else (p5, BodyExit.normal)
                  else
                    if flag lvcRes.2.1 then
                      let p6 := p5 ++ [WEvent.progress "Step 3: Processing Standard users..."]
                      let stdRes := usersLoop flag o.createErr false cfg.standard_users
                        (lvcRes.2.1 + 1) lvcRes.2.2.1
                      let p7 := p6 ++ stdRes.1
                      match stdRes.2.2.2 with
                      | some e => (p7, BodyExit.raised e)
                      | none =>
                        if flag stdRes.2.1 then
                          (p7 ++ [WEvent.progress "Automation complete!"], BodyExit.normal)
                        else (p7, BodyExit.normal)
                    else (p5, BodyExit.cancelled)
              else (p3, BodyExit.cancelled)
          else (p2, BodyExit.cancelled)
      else (p1, BodyExit.cancelled)
  else (p0, BodyExit.cancelled)

/-- Model of `AutomationWorker.run` (lines 226-278): the `try` body, then the `except`
handler (progress line + error signal, lines 261-274) when the body raised,
then the `finally` block (lines 275-278): `self.driver` is always set before
the `try`, so `BrowserDriver.close` is called, and `automation_finished` is
emitted last. -/
def runWorker (o : Oracle) (flag : Nat → Bool) (cfg : WorkerCfg) : List WEvent :=
  match runBody o flag cfg with
  | (evs, BodyExit.raised e) =>
      evs ++ [WEvent.progress ("[ERROR] A critical error stopped the automation. Error Type: " ++ pyTypeName e),
              WEvent.errorSig (pyTypeName e), WEvent.closeCall, WEvent.finishedSig]
  | (evs, _) => evs ++ [WEvent.closeCall, WEvent.finishedSig]

/-- The account-creation attempts of a trace, in order. -/
def createdUsers (tr : List WEvent) : List UserRecord :=
  tr.filterMap (fun e => match e with
    | WEvent.createCall u => some u
    | _ => none)

/-- The environment in which every browser phase succeeds. -/
def oracleOk : Oracle :=
  { launchErr := none, loginErr := none, settleErr := none,
    createErr := fun _ => none }

/-- A loop in which every create succeeds and every flag read is true
processes the whole list in order. -/
theorem usersLoop_allOk (us : List UserRecord) (r c : Nat) :
    usersLoop (fun _ => true) (fun _ => none) false us r c =
      (us.map WEvent.createCall, r + us.length, c + us.length, none) := by
  induction us generalizing r c with
  | nil => simp [usersLoop]
  | cons u rest ih =>
      simp only [usersLoop, List.map_cons]
      rw [ih]
      simp only [if_true, Bool.false_eq_true, if_false, List.length_cons, Prod.mk.injEq]
      refine ⟨trivial, by omega, by omega, trivial⟩

theorem createdUsers_nil : createdUsers [] = [] := rfl

theorem createdUsers_append (a b : List WEvent) :
    createdUsers (a ++ b) = createdUsers a ++ createdUsers b :=
  List.filterMap_append a b _

theorem createdUsers_cons_progress (m : String) (tr : List WEvent) :
    createdUsers (WEvent.progress m :: tr) = createdUsers tr := rfl

theorem createdUsers_cons_launch (tr : List WEvent) :
    createdUsers (WEvent.launchCall :: tr) = createdUsers tr := rfl

theorem createdUsers_cons_login (tr : List WEvent) :
    createdUsers (WEvent.loginCall :: tr) = createdUsers tr := rfl

theorem createdUsers_cons_settle (tr : List WEvent) :
    createdUsers (WEvent.settleCall :: tr) = createdUsers tr := rfl

theorem createdUsers_cons_close (tr : List WEvent) :
    createdUsers (WEvent.closeCall :: tr) = createdUsers tr := rfl

theorem createdUsers_cons_error (n : String) (tr : List WEvent) :
    createdUsers (WEvent.errorSig n :: tr) = createdUsers tr := rfl

theorem createdUsers_cons_finished (tr : List WEvent) :
    createdUsers (WEvent.finishedSig :: tr) = createdUsers tr := rfl

theorem createdUsers_cons_create (u : UserRecord) (tr : List WEvent) :
    createdUsers (WEvent.createCall u :: tr) = u :: createdUsers tr := rfl

theorem createdUsers_map (us : List UserRecord) :
    createdUsers (us.map WEvent.createCall) = us := by
  induction us with
  | nil => rfl
  | cons u rest ih =>
      rw [List.map_cons, createdUsers_cons_create, ih]

/-- C1: with debug mode off, every phase succeeding and the cancellation flag
never cleared, the worker attempts exactly the M + N account-creation
sequences, every LVC record in list order first and then every standard
record in list order, each list position exactly once. -/
theorem nonDebugRun_creates_all_in_order (lvc std : List UserRecord) :
    createdUsers (runWorker oracleOk (fun _ => true)
        { lvc_users := lvc, standard_users := std, debug_mode := false }) =
      lvc ++ std ∧
    (createdUsers (runWorker oracleOk (fun _ => true)
        { lvc_users := lvc, standard_users := std, debug_mode := false })).length =
      lvc.length + std.length := by
  have h : createdUsers (runWorker oracleOk (fun _ => true)
      { lvc_users := lvc, standard_users := std, debug_mode := false }) = lvc ++ std := by
    simp [runWorker, runBody, oracleOk, usersLoop_allOk, startMsgs,
      createdUsers_append, createdUsers_nil, createdUsers_cons_progress,
      createdUsers_cons_launch, createdUsers_cons_login, createdUsers_cons_settle,
      createdUsers_cons_close, createdUsers_cons_finished, createdUsers_map,
      createdUsers_cons_create]
  refine ⟨h, ?_⟩
  rw [h]
  simp

/-- The close call (line 277). -/
def isClose : WEvent → Bool
  | WEvent.closeCall => true
  | _ => false

/-- The terminal error signal (line 274). -/
def isErrorSig : WEvent → Bool
  | WEvent.errorSig _ => true
  | _ => false

/-- The completion signal (line 278). -/
def isFinished : WEvent → Bool
  | WEvent.finishedSig => true
  | _ => false

/-- Events emitted only by the `except`/`finally` epilogue, never by the body. -/
def isCtl (e : WEvent) : Bool :=
  isClose e || isErrorSig e || isFinished e

theorem usersLoop_ctlFree (flag : Nat → Bool) (ce : Nat → Option PyError) (db : Bool)
    (us : List UserRecord) (r c : Nat) :
    ((usersLoop flag ce db us r c).1).countP isCtl = 0 := by
  induction us generalizing r c with
  | nil => simp [usersLoop]
  | cons u rest ih =>
      simp only [usersLoop]
      split
      · split
        · simp [isCtl, isClose, isErrorSig, isFinished]
        · split
          · simp [isCtl, isClose, isErrorSig, isFinished]
          · simp [List.countP_cons, isCtl, isClose, isErrorSig, isFinished, ih]
      · simp

theorem startMsgs_ctlFree (d : Bool) : (startMsgs d).countP isCtl = 0 := by
  cases d <;> rfl

theorem runBody_ctlFree (o : Oracle) (flag : Nat → Bool) (cfg : WorkerCfg) :
    ((runBody o flag cfg).1).countP isCtl = 0 := by
  simp only [runBody]
  repeat' split
  all_goals
    simp [startMsgs_ctlFree, List.countP_append, List.countP_cons,
      isCtl, isClose, isErrorSig, isFinished, usersLoop_ctlFree]

theorem countP_le_ctlFree (p : WEvent → Bool) (hp : ∀ e, p e = true → isCtl e = true)
    (l : List WEvent) (hl : l.countP isCtl = 0) : l.countP p = 0 :=
  Nat.le_zero.mp (hl ▸ List.countP_mono_left (fun e _ hpe => hp e hpe))

theorem runBody_close_count (o : Oracle) (flag : Nat → Bool) (cfg : WorkerCfg) :
    ((runBody o flag cfg).1).countP isClose = 0 :=
  countP_le_ctlFree isClose (fun e h => by simp [isCtl, h]) _ (runBody_ctlFree o flag cfg)

theorem runBody_error_count (o : Oracle) (flag : Nat → Bool) (cfg : WorkerCfg) :
    ((runBody o flag cfg).1).countP isErrorSig = 0 :=
  countP_le_ctlFree isErrorSig (fun e h => by simp [isCtl, h]) _ (runBody_ctlFree o flag cfg)

theorem runBody_finished_count (o : Oracle) (flag : Nat → Bool) (cfg : WorkerCfg) :
    ((runBody o flag cfg).1).countP isFinished = 0 :=
  countP_le_ctlFree isFinished (fun e h => by simp [isCtl, h]) _ (runBody_ctlFree o flag cfg)

/-- C3: on every exit path of `AutomationWorker.run` — normal completion,
cooperative cancellation, or an exception raised by any phase — the
`finally` block calls `BrowserDriver.close` exactly once: `self.driver` is
assigned before the `try`, so the guard on line 276 always passes, and no
other site calls `close`. -/
theorem runWorker_close_called_exactly_once (o : Oracle) (flag : Nat → Bool)
    (cfg : WorkerCfg) : (runWorker o flag cfg).countP isClose = 1 := by
  have h0 := runBody_close_count o flag cfg
  rcases hr : runBody o flag cfg with ⟨evs, ex⟩
  rw [hr] at h0
  simp only at h0
  cases ex <;>
    simp [runWorker, hr, List.countP_append, List.countP_cons, isClose, h0]

/-- Is the given run outcome an escaped exception? -/
def bodyRaised : BodyExit → Bool
  | BodyExit.raised _ => true
  | _ => false

/-- C4: for every run of the worker, whatever the oracle and the cancellation
flag do, the completion signal is emitted exactly once and is the very last
event of the run's trace, and the terminal error signal is emitted exactly
once when an exception escapes the `try` body and never otherwise. -/
theorem runWorker_finished_last_error_at_most_once (o : Oracle) (flag : Nat → Bool)
    (cfg : WorkerCfg) :
    (runWorker o flag cfg).countP isFinished = 1 ∧
    (runWorker o flag cfg).getLast? = some WEvent.finishedSig ∧
    (runWorker o flag cfg).countP isErrorSig =
      (if bodyRaised (runBody o flag cfg).2 then 1 else 0) := by
  have h0 := runBody_finished_count o flag cfg
  have h1 := runBody_error_count o flag cfg
  rcases hr : runBody o flag cfg with ⟨evs, ex⟩
  rw [hr] at h0 h1
  simp only at h0 h1
  refine ⟨?_, ?_, ?_⟩ <;>
    cases ex <;>
      simp [runWorker, hr, bodyRaised, List.countP_append, List.countP_cons,
        isFinished, isErrorSig, h0, h1, List.getLast?_append_of_ne_nil]

theorem usersLoop_debug_creates (flag : Nat → Bool) (ce : Nat → Option PyError)
    (us : List UserRecord) (r c : Nat) :
    createdUsers (usersLoop flag ce true us r c).1 = [] ∨
    createdUsers (usersLoop flag ce true us r c).1 = us.take 1 := by
  cases us with
  | nil => left; rfl
  | cons u rest =>
      by_cases hf : flag r = true
      · right
        cases hce : ce c <;>
          simp [usersLoop, hf, hce, createdUsers_cons_create,
            createdUsers_cons_progress, createdUsers_nil]
      · left
        simp [usersLoop, hf, createdUsers_nil]

theorem debug_body_creates (o : Oracle) (flag : Nat → Bool) (lvc std : List UserRecord) :
    createdUsers (runBody o flag
        { lvc_users := lvc, standard_users := std, debug_mode := true }).1 = [] ∨
    createdUsers (runBody o flag
        { lvc_users := lvc, standard_users := std, debug_mode := true }).1 = lvc.take 1 := by
  simp only [runBody]
  repeat' split
  all_goals
    simp only [startMsgs, createdUsers_append, createdUsers_nil,
      createdUsers_cons_progress, createdUsers_cons_launch, createdUsers_cons_login,
      createdUsers_cons_settle, if_true, List.append_nil, List.nil_append]
  all_goals
    first
    | (left; rfl)
    | (simpa using usersLoop_debug_creates flag o.createErr lvc 4 0)
    | (exact absurd trivial (by assumption))

/-- C2: with debug mode on, at most one account-creation sequence is ever
attempted, whatever the phase outcomes and the cancellation flag, and any
attempted record is the first LVC record; with every phase succeeding and the
flag never cleared, the attempts are exactly the first LVC record (none when
`lvc_users` is empty), and no standard-batch record is ever processed. -/
theorem debugRun_creates_at_most_first_lvc (o : Oracle) (flag : Nat → Bool)
    (lvc std : List UserRecord) :
    (createdUsers (runWorker o flag
        { lvc_users := lvc, standard_users := std, debug_mode := true }) = [] ∨
     createdUsers (runWorker o flag
        { lvc_users := lvc, standard_users := std, debug_mode := true }) = lvc.take 1) ∧
    createdUsers (runWorker oracleOk (fun _ => true)
        { lvc_users := lvc, standard_users := std, debug_mode := true }) = lvc.take 1 := by
  constructor
  · have h := debug_body_creates o flag lvc std
    rcases hr : runBody o flag
        { lvc_users := lvc, standard_users := std, debug_mode := true } with ⟨evs, ex⟩
    rw [hr] at h
    simp only at h
    cases ex <;>
      simpa [runWorker, hr, createdUsers_append, createdUsers_nil,
        createdUsers_cons_progress, createdUsers_cons_close, createdUsers_cons_error,
        createdUsers_cons_finished] using h
  · cases lvc with
    | nil =>
        simp [runWorker, runBody, oracleOk, usersLoop, startMsgs, createdUsers]
    | cons u rest =>
        simp [runWorker, runBody, oracleOk, usersLoop, startMsgs,
          createdUsers_append, createdUsers_nil, createdUsers_cons_progress,
          createdUsers_cons_launch, createdUsers_cons_login, createdUsers_cons_settle,
          createdUsers_cons_close, createdUsers_cons_finished, createdUsers_cons_create]

/-- The records the worker attempts when the cancellation flag is true for
exactly the first `t` reads of a non-debug run in which every phase succeeds.
Read indices: 0-3 guard the pre-loop phases, the check before the (j+1)-th
LVC record is read 4+j, the standard-phase check is read 4+M, and the check
before the (j+1)-th standard record is read 5+M+j (M = number of LVC rows). -/
def cutoffCreates (t : Nat) (lvc std : List UserRecord) : List UserRecord :=
  lvc.take (t - 4) ++
    (if 5 + lvc.length ≤ t then std.take (t - (5 + lvc.length)) else [])

theorem usersLoop_cutoff (t : Nat) (us : List UserRecord) (r c : Nat) (h : r ≤ t) :
    usersLoop (fun i => decide (i < t)) (fun _ => none) false us r c =
      (List.map WEvent.createCall (us.take (t - r)),
       if us.length ≤ t - r then r + us.length else t + 1,
       c + min us.length (t - r),
       none) := by
  induction us generalizing r c with
  | nil => simp [usersLoop]
  | cons u rest ih =>
      rcases Nat.lt_or_ge r t with hr | hr
      · have hd : decide (r < t) = true := by simp [hr]
        simp only [usersLoop, hd, if_true]
        rw [ih (r + 1) (c + 1) (by omega)]
        have h1 : t - r = (t - (r + 1)) + 1 := by omega
        have e1 : (u :: rest).take (t - r) = u :: rest.take (t - (r + 1)) := by
          rw [h1, List.take_succ_cons]
        have e2 : (if (u :: rest).length ≤ t - r then r + (u :: rest).length else t + 1) =
            (if rest.length ≤ t - (r + 1) then r + 1 + rest.length else t + 1) := by
          simp only [List.length_cons]
          split <;> split <;> omega
        have e3 : c + min (u :: rest).length (t - r) =
            c + 1 + min rest.length (t - (r + 1)) := by
          simp only [List.length_cons]
          omega
        rw [e1, List.map_cons, e2, e3]
        simp
      · have hrt : r = t := by omega
        subst hrt
        have hd : decide (r < r) = false := by simp
        simp [usersLoop, hd]

/-- With every `create_standard_user` call succeeding, neither user loop can
end in a raise, whatever the flag does. -/
theorem usersLoop_ok_no_raise (flag : Nat → Bool) (db : Bool)
    (us : List UserRecord) (r c : Nat) :
    (usersLoop flag (fun _ => none) db us r c).2.2.2 = none := by
  induction us generalizing r c with
  | nil => simp [usersLoop]
  | cons u rest ih =>
      simp only [usersLoop]
      repeat' split
      all_goals first
        | rfl
        | exact ih (r + 1) (c + 1)

/-- With every phase succeeding, the `try` body never ends in a raise,
whatever the cancellation flag does. -/
theorem runBody_ok_not_raised (flag : Nat → Bool) (cfg : WorkerCfg) :
    bodyRaised (runBody oracleOk flag cfg).2 = false := by
  simp only [runBody, oracleOk]
  repeat' split
  all_goals simp_all [bodyRaised, usersLoop_ok_no_raise]

theorem createdUsers_take_map (n : Nat) (us : List UserRecord) :
    createdUsers (List.take n (List.map WEvent.createCall us)) = us.take n := by
  rw [← List.map_take, createdUsers_map]

theorem progress_not_mem_take_map (m : String) (n : Nat) (us : List UserRecord) :
    WEvent.progress m ∉ List.take n (List.map WEvent.createCall us) := by
  intro h
  rw [← List.map_take] at h
  rcases List.mem_map.mp h with ⟨u, hu1, hu2⟩
  simp at hu2

theorem runBody_cutoff_spec (t : Nat) (lvc std : List UserRecord) :
    createdUsers (runBody oracleOk (fun i => decide (i < t))
      { lvc_users := lvc, standard_users := std, debug_mode := false }).1 =
      cutoffCreates t lvc std ∧
    (WEvent.progress "Automation complete!" ∈ (runBody oracleOk (fun i => decide (i < t))
      { lvc_users := lvc, standard_users := std, debug_mode := false }).1 ↔
      6 + lvc.length + std.length ≤ t) := by
  rcases Nat.lt_or_ge t 4 with h4 | h4
  · have hc : cutoffCreates t lvc std = [] := by
      simp only [cutoffCreates]
      rw [Nat.sub_eq_zero_of_le (by omega), if_neg (by omega)]
      simp
    rw [hc]
    interval_cases t <;>
      simp [runBody, oracleOk, startMsgs, createdUsers_append, createdUsers_nil,
        createdUsers_cons_progress, createdUsers_cons_launch, createdUsers_cons_login,
        createdUsers_cons_settle] <;>
      omega
  · have e0 : decide (0 < t) = true := by simp; omega
    have e1 : decide (1 < t) = true := by simp; omega
    have e2 : decide (2 < t) = true := by simp; omega
    have e3 : decide (3 < t) = true := by simp; omega
    have hL := usersLoop_cutoff t lvc 4 0 (by omega)
    simp only [runBody, oracleOk, e0, e1, e2, e3, if_true, hL,
      Bool.false_eq_true, if_false]
    by_cases hM : lvc.length ≤ t - 4
    · simp only [hM, if_true]
      by_cases h5 : 4 + lvc.length < t
      · have hf : decide (4 + lvc.length < t) = true := by simp [h5]
        have hS := usersLoop_cutoff t std (4 + lvc.length + 1)
          (0 + min lvc.length (t - 4)) (by omega)
        have h5p : 5 + lvc.length ≤ t := by omega
        have harg : t - (4 + lvc.length + 1) = t - (5 + lvc.length) := by omega
        simp only [hf, if_true, hS]
        constructor
        · split <;> split <;>
            simp [startMsgs, createdUsers_append, createdUsers_nil,
              createdUsers_cons_progress, createdUsers_cons_launch,
              createdUsers_cons_login, createdUsers_cons_settle, createdUsers_map,
              createdUsers_take_map, cutoffCreates, h5p, harg]
        · by_cases hN : std.length ≤ t - (4 + lvc.length + 1)
          · simp only [hN, if_true]
            by_cases h6 : 4 + lvc.length + 1 + std.length < t
            · have hg : decide (4 + lvc.length + 1 + std.length < t) = true := by
                simp [h6]
              simp only [hg, if_true]
              simp [startMsgs, List.mem_append, progress_not_mem_take_map]
              omega
            · have hg : decide (4 + lvc.length + 1 + std.length < t) = false := by
                simp; omega
              simp only [hg, Bool.false_eq_true, if_false]
              simp [startMsgs, List.mem_append, List.mem_map, progress_not_mem_take_map]
              omega
          · simp only [hN, if_false]
            have hg : decide (t + 1 < t) = false := by simp
            simp only [hg, Bool.false_eq_true, if_false]
            simp [startMsgs, List.mem_append, List.mem_map, progress_not_mem_take_map]
            omega
      · have hf : decide (4 + lvc.length < t) = false := by simp; omega
        simp only [hf, Bool.false_eq_true, if_false]
        constructor
        · simp [startMsgs, createdUsers_append, createdUsers_nil,
            createdUsers_cons_progress, createdUsers_cons_launch,
            createdUsers_cons_login, createdUsers_cons_settle, createdUsers_map,
            createdUsers_take_map, cutoffCreates, if_neg (by omega : ¬ 5 + lvc.length ≤ t)]
        · simp [startMsgs, List.mem_append, List.mem_map, progress_not_mem_take_map]
          omega
    · simp only [hM, if_false]
      have hf : decide (t + 1 < t) = false := by simp
      simp only [hf, Bool.false_eq_true, if_false]
      constructor
      · simp [startMsgs, createdUsers_append, createdUsers_nil,
          createdUsers_cons_progress, createdUsers_cons_launch,
          createdUsers_cons_login, createdUsers_cons_settle, createdUsers_map,
          createdUsers_take_map, cutoffCreates, if_neg (by omega : ¬ 5 + lvc.length ≤ t)]
      · simp [startMsgs, List.mem_append, List.mem_map, progress_not_mem_take_map]
        omega

theorem runWorker_no_error_of_not_raised (o : Oracle) (flag : Nat → Bool)
    (cfg : WorkerCfg) (h : bodyRaised (runBody o flag cfg).2 = false) :
    (runWorker o flag cfg).countP isErrorSig = 0 := by
  have h1 := runBody_error_count o flag cfg
  rcases hr : runBody o flag cfg with ⟨evs, ex⟩
  rw [hr] at h1 h
  simp only at h1 h
  cases ex <;>
    simp_all [runWorker, hr, bodyRaised, List.countP_append, List.countP_cons,
      isErrorSig]

/-- C7: in a non-debug run in which every browser phase succeeds and the
cancellation flag reads true exactly `t` times before reading false forever
(the worker reads it at phase and per-record boundaries only, in the order
documented at `runBody`), the attempted records are exactly the cutoff prefix
— in particular, a flag cleared between two sequences stops all further
sequences — no exception escapes (the error signal is never emitted), and no
completion phase runs unless every record was processed and the flag survived
to the final read. -/
theorem cancellation_halts_without_exception (t : Nat) (lvc std : List UserRecord) :
    createdUsers (runWorker oracleOk (fun i => decide (i < t))
      { lvc_users := lvc, standard_users := std, debug_mode := false }) =
      cutoffCreates t lvc std ∧
    (runWorker oracleOk (fun i => decide (i < t))
      { lvc_users := lvc, standard_users := std, debug_mode := false }).countP
      isErrorSig = 0 ∧
    (WEvent.progress "Automation complete!" ∈ runWorker oracleOk (fun i => decide (i < t))
      { lvc_users := lvc, standard_users := std, debug_mode := false } ↔
      6 + lvc.length + std.length ≤ t) := by
  have hs := runBody_cutoff_spec t lvc std
  have hnr := runBody_ok_not_raised (fun i => decide (i < t))
    { lvc_users := lvc, standard_users := std, debug_mode := false }
  refine ⟨?_, runWorker_no_error_of_not_raised _ _ _ hnr, ?_⟩ <;>
  · rcases hr : runBody oracleOk (fun i => decide (i < t))
        { lvc_users := lvc, standard_users := std, debug_mode := false } with ⟨evs, ex⟩
    rw [hr] at hs hnr
    simp only at hs hnr
    cases ex <;>
      simp_all [runWorker, hr, bodyRaised, createdUsers_append, createdUsers_nil,
        createdUsers_cons_close, createdUsers_cons_finished, List.mem_append]

/-- Environment of one `BrowserDriver.login` call (lines 39-86): the outcome
of each navigation/wait. `gotoErr` is the `page.goto` outcome (line 44); each
`...Visible` says whether the corresponding `expect(...).to_be_visible` wait
succeeded (a failed Playwright assertion raises `AssertionError`);
`pushOptionOutcome` is the outcome of the push-option wait and click (lines
70-73), `pushSentOutcome` of the confirmation-text wait (lines 76-77), both
inside the `try` of lines 69-80 and so allowed to fail with any exception;
`urlLeavesIdp` says whether `wait_for_url` (line 85) saw the URL leave
okta.com within its 120s timeout (a Playwright timeout raises
`TimeoutError`). `fill`/`click` on an element just confirmed visible are
modelled as succeeding. -/
structure LoginEnv where
  gotoErr : Option PyError
  emailVisible : Bool
  nextVisible : Bool
  passwordVisible : Bool
  verifyVisible : Bool
  pushOptionOutcome : Option PyError
  pushSentOutcome : Option PyError
  urlLeavesIdp : Bool
deriving DecidableEq, Repr

/-- Observable events of one login call. -/
inductive LEvent where
  | progress (msg : String)
  | gotoCall
  | fillEmail
  | clickNext
  | fillPassword
  | clickVerify
  | clickPush
  | urlWait
deriving DecidableEq, Repr

/-- Line 80: the informational line logged when the MFA-detection block fails. -/
def mfaInfoMsg (e : PyError) : String :=
  "[INFO] Did not find MFA selection screen, or an error occurred. Assuming push was sent by default. Details: "
    ++ pyTypeName e

/-- Model of `BrowserDriver.login` (lines 39-86): navigate, fill email, click Next,
fill password, click Verify — each wait fatal on failure — then the
best-effort MFA-detection `try` block whose failures are caught and logged
(line 79-80), then the long `wait_for_url` approval wait, fatal on timeout.
Returns the event trace and the raised error, if any. -/
def login (env : LoginEnv) : List LEvent × Option PyError :=
  match env.gotoErr with
  | some e => ([LEvent.gotoCall], some e)
  | none =>
    if env.emailVisible then
      if env.nextVisible then
        if env.passwordVisible then
          if env.verifyVisible then
            let steps := [LEvent.gotoCall, LEvent.fillEmail, LEvent.clickNext,
                          LEvent.fillPassword, LEvent.clickVerify]
            let mfaEvs :=
              match env.pushOptionOutcome with
              | some e => [LEvent.progress (mfaInfoMsg e)]
              | none =>
                match env.pushSentOutcome with
                | some e => [LEvent.clickPush, LEvent.progress (mfaInfoMsg e)]
                | none => [LEvent.clickPush,
                    LEvent.progress "Confirmation received: Push notification sent."]
            if env.urlLeavesIdp then
              (steps ++ mfaEvs ++ [LEvent.urlWait,
                LEvent.progress "MFA approved. Login successful!"], none)
            else
              (steps ++ mfaEvs ++ [LEvent.urlWait], some PyError.timeoutError)
          else ([LEvent.gotoCall, LEvent.fillEmail, LEvent.clickNext,
                 LEvent.fillPassword], some PyError.assertionError)
        else ([LEvent.gotoCall, LEvent.fillEmail, LEvent.clickNext],
              some PyError.assertionError)
      else ([LEvent.gotoCall, LEvent.fillEmail], some PyError.assertionError)
    else ([LEvent.gotoCall], some PyError.assertionError)

/-- C5: whenever the login run reaches the MFA-detection block and either the
push-selection wait or the confirmation wait fails there (with any exception
`e`), the failure is swallowed: the informational line is logged, the run
still reaches the long approval wait, and the login outcome is decided solely
by that wait, not by the detection failure. -/
theorem login_mfa_detection_failure_swallowed (env : LoginEnv) (e : PyError)
    (h0 : env.gotoErr = none) (h1 : env.emailVisible = true)
    (h2 : env.nextVisible = true) (h3 : env.passwordVisible = true)
    (h4 : env.verifyVisible = true)
    (h5 : env.pushOptionOutcome = some e ∨
      (env.pushOptionOutcome = none ∧ env.pushSentOutcome = some e)) :
    LEvent.progress (mfaInfoMsg e) ∈ (login env).1 ∧
    LEvent.urlWait ∈ (login env).1 ∧
    (login env).2 = (if env.urlLeavesIdp then none else some PyError.timeoutError) := by
  obtain ⟨g, ev, nv, pv, vv, po, ps, ul⟩ := env
  simp only at h0 h1 h2 h3 h4 h5 ⊢
  subst h0; subst h1; subst h2; subst h3; subst h4
  rcases h5 with h5 | ⟨h5a, h5b⟩
  · subst h5
    cases ul <;> simp [login, mfaInfoMsg]
  · subst h5a; subst h5b
    cases ul <;> simp [login, mfaInfoMsg]

/-- A login run in which everything up to the approval wait succeeds but the
URL never leaves the identity provider within the long timeout. -/
def envMfaTimeout : LoginEnv :=
  { gotoErr := none, emailVisible := true, nextVisible := true,
    passwordVisible := true, verifyVisible := true,
    pushOptionOutcome := some PyError.assertionError, pushSentOutcome := none,
    urlLeavesIdp := false }

/-- A login run in which the initial navigation (line 44) times out. -/
def envGotoTimeout : LoginEnv :=
  { gotoErr := some PyError.timeoutError, emailVisible := true, nextVisible := true,
    passwordVisible := true, verifyVisible := true,
    pushOptionOutcome := none, pushSentOutcome := none, urlLeavesIdp := true }

/-- A login run in which the email-field wait (line 48) fails. -/
def envEmailMissing : LoginEnv :=
  { gotoErr := none, emailVisible := false, nextVisible := true,
    passwordVisible := true, verifyVisible := true,
    pushOptionOutcome := none, pushSentOutcome := none, urlLeavesIdp := true }

/-- A login run that reaches the approval wait after a swallowed
MFA-detection failure and is approved in time. -/
def envPushDetectFail : LoginEnv :=
  { gotoErr := none, emailVisible := true, nextVisible := true,
    passwordVisible := true, verifyVisible := true,
    pushOptionOutcome := some PyError.assertionError, pushSentOutcome := none,
    urlLeavesIdp := true }

theorem login_mfa_detection_failure_swallowed_witness :
    LEvent.progress (mfaInfoMsg PyError.assertionError) ∈ (login envPushDetectFail).1 ∧
    LEvent.urlWait ∈ (login envPushDetectFail).1 ∧
    (login envPushDetectFail).2 =
      (if envPushDetectFail.urlLeavesIdp then none else some PyError.timeoutError) :=
  login_mfa_detection_failure_swallowed envPushDetectFail PyError.assertionError
    rfl rfl rfl rfl rfl (Or.inl rfl)

/-- C6 counterexample: the long approval wait times out by raising Playwright's
generic `TimeoutError`, the very same exception class `page.goto` raises on a
navigation timeout; the worker surfaces only the class name and the
library-generated message (lines 266-272), so the surfaced type name of an
MFA-approval timeout equals that of a step-1 navigation timeout — the error is
not distinguishable from the other timeout and navigation failures, contrary
to the claim. -/
theorem mfa_timeout_indistinguishable_from_navigation :
    (login envMfaTimeout).2 = some PyError.timeoutError ∧
    (login envGotoTimeout).2 = some PyError.timeoutError ∧
    Option.map pyTypeName (login envMfaTimeout).2 =
      Option.map pyTypeName (login envGotoTimeout).2 := by
  refine ⟨rfl, rfl, rfl⟩

/-- C6 amended: if the URL never leaves the identity-provider domain within
the long wait, the login run that reached that wait fails fatally with
Playwright's `TimeoutError`; that is distinguishable (by surfaced type name)
from the element-wait failures of the earlier login steps, which raise
`AssertionError`, but it shares its type with the navigation timeouts of
`page.goto`, from which only the library-generated message text differs. -/
theorem mfa_timeout_fatal_and_type (env env2 : LoginEnv)
    (h0 : env.gotoErr = none) (h1 : env.emailVisible = true)
    (h2 : env.nextVisible = true) (h3 : env.passwordVisible = true)
    (h4 : env.verifyVisible = true) (h5 : env.urlLeavesIdp = false)
    (g0 : env2.gotoErr = none) (g1 : env2.emailVisible = false) :
    (login env).2 = some PyError.timeoutError ∧
    (login env2).2 = some PyError.assertionError ∧
    pyTypeName PyError.timeoutError ≠ pyTypeName PyError.assertionError := by
  obtain ⟨g, ev, nv, pv, vv, po, ps, ul⟩ := env
  obtain ⟨g2, ev2, nv2, pv2, vv2, po2, ps2, ul2⟩ := env2
  simp only at h0 h1 h2 h3 h4 h5 g0 g1
  subst h0; subst h1; subst h2; subst h3; subst h4; subst h5; subst g0; subst g1
  refine ⟨?_, by simp [login], by simp [pyTypeName]⟩
  cases po <;> [skip; cases ps] <;> simp [login]

theorem mfa_timeout_fatal_and_type_witness :
    (login envMfaTimeout).2 = some PyError.timeoutError ∧
    (login envEmailMissing).2 = some PyError.assertionError ∧
    pyTypeName PyError.timeoutError ≠ pyTypeName PyError.assertionError :=
  mfa_timeout_fatal_and_type envMfaTimeout envEmailMissing
    rfl rfl rfl rfl rfl rfl rfl rfl

/-- Line 201: the validation message of `parse_credentials_file`. -/
def credErrMsg : String :=
  "Credentials file must have at least two lines (email and password)."

/-- Model of `parse_credentials_file` (lines 196-204), over the lines `readlines`
returned: fewer than two lines is a `ValueError`, otherwise lines 1 and 2 are
stripped and returned as email and password. -/
def parse_credentials_file (lines : List String) : Except String (String × String) :=
  if lines.length < 2 then Except.error credErrMsg
  else Except.ok ((lines.getD 0 "").trim, (lines.getD 1 "").trim)

/-- The Python exceptions `parse_user_data` can raise on a loaded sheet:
pandas raises `KeyError` listing the missing columns when `dropna(subset=...)`
names an absent column (line 182/186); the explicit header checks raise
`ValueError` (lines 188-191); `iloc[0]` on an empty frame raises
`IndexError` (line 179). -/
inductive PdError where
  | keyError (cols : List String)
  | valueError (msg : String)
  | indexError
deriving DecidableEq, Repr

/-- The three-column slice `df.iloc[:, a:a+3]` of one row, NaN-padded as a
rectangular pandas frame is. -/
def slice3 (row : List Cell) (a : Nat) : List Cell :=
  [row.getD a none, row.getD (a + 1) none, row.getD (a + 2) none]

/-- Line 181: `rename(columns={'LVC Currency': 'Currency'})`. -/
def renameHeader (headers : List Cell) : List Cell :=
  headers.map (fun h => if h = some "LVC Currency" then some "Currency" else h)

/-- Membership test `col in df.columns`. -/
def headersContain (headers : List Cell) (name : String) : Bool :=
  headers.any (fun h => h = some name)

/-- Model of `df.dropna(subset=[colName])` (lines 182, 186): `KeyError` when the column
is absent, otherwise the rows whose cell in that column is not NaN. -/
def dropnaSubset (headers : List Cell) (rows : List (List Cell)) (colName : String) :
    Except PdError (List (List Cell)) :=
  match headers.findIdx? (fun h => h = some colName) with
  | none => Except.error (PdError.keyError [colName])
  | some i => Except.ok (rows.filter (fun row => (row.getD i none).isSome))

/-- Line 187. -/
def requiredColumns : List String := ["Currency", "Username", "Postfix"]

/-- Line 189. -/
def lvcHeaderMsg : String :=
  "The LVC section (Columns A-C) is missing required headers: 'LVC Currency', 'Username', 'Postfix'."

/-- Line 191. -/
def stdHeaderMsg : String :=
  "The Standard section (Columns E-G) is missing required headers: 'Currency', 'Username', 'Postfix'."

/-- One named cell of a row under the given headers, as `to_dict('records')`
exposes it. -/
def colVal (headers : List Cell) (row : List Cell) (name : String) : Cell :=
  match headers.findIdx? (fun h => h = some name) with
  | none => none
  | some i => row.getD i none

/-- One record of `to_dict('records')` (lines 192-193) restricted to the three
named columns the rest of the program reads. -/
def toRecord (headers : List Cell) (row : List Cell) : UserRecord :=
  { Currency := colVal headers row "Currency",
    Username := colVal headers row "Username",
    Postfix := colVal headers row "Postfix" }

/-- Model of `parse_user_data` (lines 167-194) over the grid of `Sheet1` read with
`header=None` (file/sheet access, lines 168-177, is taken as already
succeeded): slice columns A-C and E-G, take row 0 of each slice as headers,
rename `LVC Currency` to `Currency` in the LVC slice, discard rows with a
blank currency (`dropna`, which raises `KeyError` if the column is absent),
check the required headers of both sections (`ValueError` when missing), and
return the two record lists. The `dropna` calls precede both header checks,
exactly as in the source. -/
def parse_user_data (rows : List (List Cell)) :
    Except PdError (List UserRecord × List UserRecord) :=
  match rows with
  | [] => Except.error PdError.indexError
  | r0 :: rest =>
    let lvcHeaders := renameHeader (slice3 r0 0)
    let lvcRows := rest.map (fun r => slice3 r 0)
    match dropnaSubset lvcHeaders lvcRows "Currency" with
    | Except.error e => Except.error e
    | Except.ok lvcRows2 =>
      let stdHeaders := slice3 r0 4
      let stdRows := rest.map (fun r => slice3 r 4)
      match dropnaSubset stdHeaders stdRows "Currency" with
      | Except.error e => Except.error e
      | Except.ok stdRows2 =>
        if requiredColumns.all (fun c => headersContain lvcHeaders c) then
          if requiredColumns.all (fun c => headersContain stdHeaders c) then
            Except.ok (lvcRows2.map (toRecord lvcHeaders),
                       stdRows2.map (toRecord stdHeaders))
          else Except.error (PdError.valueError stdHeaderMsg)
        else Except.error (PdError.valueError lvcHeaderMsg)

/-- The LVC-section headers (after the rename) of a sheet. -/
def lvcHeadersOf (rows : List (List Cell)) : List Cell :=
  renameHeader (slice3 (rows.headD []) 0)

/-- The standard-section headers of a sheet. -/
def stdHeadersOf (rows : List (List Cell)) : List Cell :=
  slice3 (rows.headD []) 4

/-- Model of `start_automation` (lines 372-422) over already-read file contents: the
pre-flight `try` parses the credentials, then the user data; any exception is
reported and the method returns before a worker (and hence a browser) exists,
so the run trace is empty; otherwise the worker runs over the parsed lists. -/
def appRun (credLines : List String) (rows : List (List Cell)) (debug : Bool)
    (o : Oracle) (flag : Nat → Bool) : List WEvent :=
  match parse_credentials_file credLines with
  | Except.error _ => []
  | Except.ok _ =>
    match parse_user_data rows with
    | Except.error _ => []
    | Except.ok (lvc, std) =>
      runWorker o flag { lvc_users := lvc, standard_users := std, debug_mode := debug }

/-- C9: a credentials file with fewer than two lines makes
`parse_credentials_file` raise its validation error, and since
`start_automation` runs that parse in its pre-flight checks before creating
any worker, such a run performs no browser action at all. -/
theorem short_credentials_error_before_browser (lines : List String)
    (h : lines.length < 2) (rows : List (List Cell)) (debug : Bool)
    (o : Oracle) (flag : Nat → Bool) :
    parse_credentials_file lines = Except.error credErrMsg ∧
    appRun lines rows debug o flag = [] := by
  constructor
  · simp [parse_credentials_file, h]
  · simp [appRun, parse_credentials_file, h]

theorem short_credentials_error_before_browser_witness :
    parse_credentials_file ["user@example.com"] = Except.error credErrMsg ∧
    appRun ["user@example.com"] [] false oracleOk (fun _ => true) = [] :=
  short_credentials_error_before_browser ["user@example.com"] (by decide)
    [] false oracleOk (fun _ => true)

/-- Whether `parse_user_data` raised. -/
def parseFailed (rows : List (List Cell)) : Bool :=
  match parse_user_data rows with
  | Except.error _ => true
  | Except.ok _ => false

/-- Whether the parse outcome is the explicit header-validation `ValueError`
of lines 188-191. -/
def isHeaderValidationError {α : Type} : Except PdError α → Bool
  | Except.error (PdError.valueError _) => true
  | _ => false

/-- Whether `parse_user_data` succeeded with every returned record carrying a
non-blank currency. -/
def parseOkNonBlank (rows : List (List Cell)) : Bool :=
  match parse_user_data rows with
  | Except.ok (l, s) => (l ++ s).all (fun u => u.Currency.isSome)
  | Except.error _ => false

/-- A sheet whose LVC section (columns A-C) lacks any Currency/LVC-Currency
header while the standard section (columns E-G) is well-formed. -/
def c10Sheet : List (List Cell) :=
  [[some "Foo", some "Username", some "Postfix", none,
    some "Currency", some "Username", some "Postfix"],
   [some "USD", some "alice", some "1", none,
    some "EUR", some "bob", some "2"]]

/-- A sheet whose two sections both carry a currency header but whose LVC
section lacks the `Username` header. -/
def w10bSheet : List (List Cell) :=
  [[some "LVC Currency", some "Foo", some "Postfix", none,
    some "Currency", some "Username", some "Postfix"],
   [some "USD", some "alice", some "1", none,
    some "EUR", some "bob", some "2"]]

/-- A sheet with all expected headers and one blank-currency row in each
section. -/
def w10cSheet : List (List Cell) :=
  [[some "LVC Currency", some "Username", some "Postfix", none,
    some "Currency", some "Username", some "Postfix"],
   [some "USD", some "alice", some "1", none,
    none, some "bob", some "2"],
   [none, some "carol", some "3", none,
    some "EUR", some "dave", some "4"]]

/-- A sheet whose LVC section is well-formed but whose standard section lacks
any Currency header. -/
def w10dSheet : List (List Cell) :=
  [[some "LVC Currency", some "Username", some "Postfix", none,
    some "Foo", some "Username", some "Postfix"],
   [some "USD", some "alice", some "1", none,
    some "EUR", some "bob", some "2"]]

/-- A sheet whose two sections both carry a currency header and whose LVC
headers are complete, but whose standard section lacks the `Username`
header. -/
def w10eSheet : List (List Cell) :=
  [[some "LVC Currency", some "Username", some "Postfix", none,
    some "Currency", some "Foo", some "Postfix"],
   [some "USD", some "alice", some "1", none,
    some "EUR", some "bob", some "2"]]

/-- C10 counterexample: on a sheet whose LVC section has no Currency header,
`parse_user_data` aborts with the pandas column-lookup `KeyError` raised by
the blank-row-discard call (line 182), not with the header-validation
`ValueError` of lines 188-189 — the `dropna` call precedes the header check,
so for a missing currency header the validation error is unreachable. -/
theorem missing_currency_header_not_validation_error :
    parse_user_data c10Sheet = Except.error (PdError.keyError ["Currency"]) ∧
    isHeaderValidationError (parse_user_data c10Sheet) = false := by
  refine ⟨rfl, rfl⟩

theorem headersContain_false_findIdx? (headers : List Cell) (name : String)
    (h : headersContain headers name = false) :
    headers.findIdx? (fun c => c = some name) = none := by
  rw [headersContain] at h
  rw [List.findIdx?_eq_none_iff]
  intro x hx
  exact Bool.eq_false_iff.mpr (List.any_eq_false.mp h x hx)

theorem headersContain_true_findIdx? (headers : List Cell) (name : String)
    (h : headersContain headers name = true) :
    ∃ i, headers.findIdx? (fun c => c = some name) = some i := by
  have hs : (headers.findIdx? (fun c => c = some name)).isSome =
      headers.any (fun c => c = some name) := List.findIdx?_isSome
  rw [headersContain] at h
  rw [h] at hs
  exact Option.isSome_iff_exists.mp hs

/-- C10 amended: on a non-empty sheet, (1) a missing Currency/LVC-Currency
header in the LVC section aborts parsing with the column-lookup `KeyError`
from the blank-row-discard step, which precedes the header check — not with
the header-validation error; (2) likewise, a standard section without a
Currency header aborts with the same `KeyError` from the line 186 `dropna`;
(3) when both sections carry a currency header but the LVC section misses
another required header, parsing raises the explicit LVC header-validation
`ValueError`; (4) when both currency headers are present, the LVC headers are
complete and the standard section misses another required header, parsing
raises the explicit standard header-validation `ValueError`; (5) with all
required headers present parsing succeeds and every returned record has a
non-blank currency — blank-currency rows are silently discarded, never an
error; and (6) whenever parsing fails, the application run performs no
browser action at all. -/
theorem parse_user_data_header_and_blank_rows (rows : List (List Cell)) :
    (headersContain (lvcHeadersOf rows) "Currency" = false → rows ≠ [] →
      parse_user_data rows = Except.error (PdError.keyError ["Currency"])) ∧
    (headersContain (lvcHeadersOf rows) "Currency" = true →
     headersContain (stdHeadersOf rows) "Currency" = false →
     rows ≠ [] →
      parse_user_data rows = Except.error (PdError.keyError ["Currency"])) ∧
    (headersContain (lvcHeadersOf rows) "Currency" = true →
     headersContain (stdHeadersOf rows) "Currency" = true →
     requiredColumns.all (fun c => headersContain (lvcHeadersOf rows) c) = false →
     rows ≠ [] →
      parse_user_data rows = Except.error (PdError.valueError lvcHeaderMsg)) ∧
    (headersContain (lvcHeadersOf rows) "Currency" = true →
     headersContain (stdHeadersOf rows) "Currency" = true →
     requiredColumns.all (fun c => headersContain (lvcHeadersOf rows) c) = true →
     requiredColumns.all (fun c => headersContain (stdHeadersOf rows) c) = false →
     rows ≠ [] →
      parse_user_data rows = Except.error (PdError.valueError stdHeaderMsg)) ∧
    (requiredColumns.all (fun c => headersContain (lvcHeadersOf rows) c) = true →
     requiredColumns.all (fun c => headersContain (stdHeadersOf rows) c) = true →
     rows ≠ [] →
      parseOkNonBlank rows = true) ∧
    (parseFailed rows = true →
     ∀ (credLines : List String) (debug : Bool) (o : Oracle) (flag : Nat → Bool),
      appRun credLines rows debug o flag = []) := by
  refine ⟨?_, ?_, ?_, ?_, ?_, ?_⟩
  · intro h hne
    obtain ⟨r0, rest, rfl⟩ := List.exists_cons_of_ne_nil hne
    have hidx := headersContain_false_findIdx? _ _
      (by simpa [lvcHeadersOf] using h)
    simp [parse_user_data, dropnaSubset, hidx]
  · intro h1 h2 hne
    obtain ⟨r0, rest, rfl⟩ := List.exists_cons_of_ne_nil hne
    obtain ⟨i, hi⟩ := headersContain_true_findIdx? _ _
      (by simpa [lvcHeadersOf] using h1)
    have hjdx := headersContain_false_findIdx? _ _
      (by simpa [stdHeadersOf] using h2)
    simp [parse_user_data, dropnaSubset, hi, hjdx]
  · intro h1 h2 h3 hne
    obtain ⟨r0, rest, rfl⟩ := List.exists_cons_of_ne_nil hne
    obtain ⟨i, hi⟩ := headersContain_true_findIdx? _ _
      (by simpa [lvcHeadersOf] using h1)
    obtain ⟨j, hj⟩ := headersContain_true_findIdx? _ _
      (by simpa [stdHeadersOf] using h2)
    have h3' : requiredColumns.all
        (fun c => headersContain (renameHeader (slice3 r0 0)) c) = false := by
      simpa [lvcHeadersOf] using h3
    simp [parse_user_data, dropnaSubset, hi, hj, h3']
  · intro h1 h2 h3 h4 hne
    obtain ⟨r0, rest, rfl⟩ := List.exists_cons_of_ne_nil hne
    obtain ⟨i, hi⟩ := headersContain_true_findIdx? _ _
      (by simpa [lvcHeadersOf] using h1)
    obtain ⟨j, hj⟩ := headersContain_true_findIdx? _ _
      (by simpa [stdHeadersOf] using h2)
    have h3' : requiredColumns.all
        (fun c => headersContain (renameHeader (slice3 r0 0)) c) = true := by
      simpa [lvcHeadersOf] using h3
    have h4' : requiredColumns.all
        (fun c => headersContain (slice3 r0 4) c) = false := by
      simpa [stdHeadersOf] using h4
    simp [parse_user_data, dropnaSubset, hi, hj, h3', h4']
  · intro h1 h2 hne
    obtain ⟨r0, rest, rfl⟩ := List.exists_cons_of_ne_nil hne
    have h1' : requiredColumns.all
        (fun c => headersContain (renameHeader (slice3 r0 0)) c) = true := by
      simpa [lvcHeadersOf] using h1
    have h2' : requiredColumns.all
        (fun c => headersContain (slice3 r0 4) c) = true := by
      simpa [stdHeadersOf] using h2
    have hc1 : headersContain (renameHeader (slice3 r0 0)) "Currency" = true := by
      have := List.all_eq_true.mp h1' "Currency" (by simp [requiredColumns])
      simpa using this
    have hc2 : headersContain (slice3 r0 4) "Currency" = true := by
      have := List.all_eq_true.mp h2' "Currency" (by simp [requiredColumns])
      simpa using this
    obtain ⟨i, hi⟩ := headersContain_true_findIdx? _ _ hc1
    obtain ⟨j, hj⟩ := headersContain_true_findIdx? _ _ hc2
    simp only [parseOkNonBlank, parse_user_data, dropnaSubset, hi, hj, h1', h2',
      if_true]
    rw [List.all_eq_true]
    intro u hu
    rcases List.mem_append.mp hu with hu | hu
    · rcases List.mem_map.mp hu with ⟨row, hrow, rfl⟩
      have hp := (List.mem_filter.mp hrow).2
      simpa [toRecord, colVal, hi] using hp
    · rcases List.mem_map.mp hu with ⟨row, hrow, rfl⟩
      have hp := (List.mem_filter.mp hrow).2
      simpa [toRecord, colVal, hj] using hp
  · intro hno credLines debug o flag
    simp only [appRun]
    cases hc : parse_credentials_file credLines with
    | error e => rfl
    | ok p =>
        cases hp : parse_user_data rows with
        | error e => rfl
        | ok q =>
            rw [parseFailed, hp] at hno
            simp at hno

theorem parse_user_data_header_and_blank_rows_witness :
    parse_user_data c10Sheet = Except.error (PdError.keyError ["Currency"]) ∧
    parse_user_data w10dSheet = Except.error (PdError.keyError ["Currency"]) ∧
    parse_user_data w10bSheet = Except.error (PdError.valueError lvcHeaderMsg) ∧
    parse_user_data w10eSheet = Except.error (PdError.valueError stdHeaderMsg) ∧
    parseOkNonBlank w10cSheet = true ∧
    appRun ["user@example.com", "pw"] c10Sheet false oracleOk (fun _ => true) = [] :=
  ⟨(parse_user_data_header_and_blank_rows c10Sheet).1 rfl (by decide),
   (parse_user_data_header_and_blank_rows w10dSheet).2.1 rfl rfl (by decide),
   (parse_user_data_header_and_blank_rows w10bSheet).2.2.1 rfl rfl rfl (by decide),
   (parse_user_data_header_and_blank_rows w10eSheet).2.2.2.1 rfl rfl rfl rfl
     (by decide),
   (parse_user_data_header_and_blank_rows w10cSheet).2.2.2.2.1 rfl rfl (by decide),
   (parse_user_data_header_and_blank_rows c10Sheet).2.2.2.2.2 rfl
     ["user@example.com", "pw"] false oracleOk (fun _ => true)⟩

/-- Python `str.split(sep)` for a one-character separator, on the character
list: cut at every separator character, keeping empty fragments; the result
is never empty (splitting "" gives [""]). -/
def splitOnPred (p : Char → Bool) : List Char → List (List Char)
  | [] => [[]]
  | c :: cs =>
    if p c then [] :: splitOnPred p cs
    else
      match splitOnPred p cs with
      | [] => [[c]]
      | t :: ts => (c :: t) :: ts

theorem splitOnPred_ne_nil (p : Char → Bool) (l : List Char) :
    splitOnPred p l ≠ [] := by
  cases l with
  | nil => simp [splitOnPred]
  | cons c cs =>
      by_cases hp : p c = true
      · simp [splitOnPred, hp]
      · cases h : splitOnPred p cs <;> simp [splitOnPred, hp, h]

theorem splitOnPred_head (p : Char → Bool) (l : List Char) :
    (splitOnPred p l).headD [] = l.takeWhile (fun c => !(p c)) := by
  induction l with
  | nil => rfl
  | cons c cs ih =>
      by_cases hp : p c = true
      · simp [splitOnPred, hp, List.takeWhile_cons]
      · have hnp : p c = false := by simpa using hp
        cases h : splitOnPred p cs with
        | nil => exact absurd h (splitOnPred_ne_nil p cs)
        | cons t ts =>
            have ht : t = cs.takeWhile (fun c => !(p c)) := by
              rw [← ih, h]
              rfl
            simp [splitOnPred, hnp, h, List.takeWhile_cons, ht]

/-- Line 107: `currency_code = str(user_details['Currency']).split(' ')[0]`.
Python `split(' ')` cuts at every single space character (not at general
whitespace), and always yields at least one fragment, so `[0]` never fails. -/
def currency_code (s : String) : String :=
  String.mk ((splitOnPred (fun c => c = ' ') s.data).headD [])

/-- Modelled from the spec: "the first whitespace-delimited token of the
record's Currency field" — split at every whitespace character and take the
first non-empty token. Stated only to compare the claim's wording with
`currency_code`; the source computes `currency_code`. -/
def firstWhitespaceToken (s : String) : String :=
  String.mk (((splitOnPred Char.isWhitespace s.data).filter
    (fun t => t ≠ [])).headD [])

/-- Python `str(x)` / f-string rendering of a cell: the string itself, or
"nan" for a pandas NaN. -/
def pyFStr : Cell → String
  | some s => s
  | none => "nan"

/-- The values typed into the account-creation form. -/
structure ProvisionForm where
  username : String
  password : String
  currency : String
deriving DecidableEq, Repr

/-- The per-record form values of `create_standard_user` (lines 106-107, 134,
140, 146): username is `Username` then `Postfix` with no separator, the
password is the supplied new-account password, and the currency option label
selected is `currency_code` of the record's Currency field. -/
def provisionForm (user_details : UserRecord) (user_password : String) :
    ProvisionForm :=
  { username := pyFStr user_details.Username ++ pyFStr user_details.Postfix,
    password := user_password,
    currency := currency_code (pyFStr user_details.Currency) }

/-- C8 counterexample: for a record whose Currency is "USD\tEUR" (tab, not
space), the option selected is the whole string — line 107 splits only at
the space character — while the first whitespace-delimited token is "USD",
so the claim's universal "first whitespace-delimited token" reading fails. -/
theorem currency_not_whitespace_token :
    (provisionForm ⟨some "USD\tEUR", some "alice", some "1"⟩ "pw").currency =
      "USD\tEUR" ∧
    firstWhitespaceToken "USD\tEUR" = "USD" ∧
    (provisionForm ⟨some "USD\tEUR", some "alice", some "1"⟩ "pw").currency ≠
      firstWhitespaceToken "USD\tEUR" := by
  refine ⟨?_, ?_, ?_⟩ <;> decide

/-- C8 amended: the currency option selected during provisioning is the
prefix of the record's Currency field before the first space character
(Python `split(' ')[0]`) — which agrees with the first whitespace-delimited
token only when the field has no leading space and no earlier non-space
whitespace; in particular the currency value "USD (US Dollar)" selects
option "USD". -/
theorem currency_prefix_before_space (u : UserRecord) (pw : String) :
    (provisionForm u pw).currency =
      String.mk ((pyFStr u.Currency).data.takeWhile (fun c => !(c = ' '))) ∧
    (u.Currency = some "USD (US Dollar)" →
      (provisionForm u pw).currency = "USD") := by
  constructor
  · exact congrArg String.mk
      (splitOnPred_head (fun c => c = ' ') (pyFStr u.Currency).data)
  · intro h
    have hc : (provisionForm u pw).currency = currency_code (pyFStr u.Currency) := rfl
    rw [hc, h]
    decide

theorem currency_prefix_before_space_witness :
    (provisionForm ⟨some "USD (US Dollar)", some "alice", some "1"⟩ "pw").currency =
      "USD" :=
  (currency_prefix_before_space ⟨some "USD (US Dollar)", some "alice", some "1"⟩
    "pw").2 rfl
